import Mathlib

/-!
# Verification of `terminal-prompt` (Rust)

A shallow embedding of the `terminal-prompt` crate, covering:

* the platform terminal-mode representations (`src/sys/unix.rs` termios
  `c_lflag` manipulation and `src/sys/windows.rs` console `input_mode`
  manipulation),
* the platform terminal discovery (`Terminal::open` in both backends),
* the platform-independent session logic in `src/lib.rs`
  (`Terminal::open`, `read_input_line`, `prompt_sensitive`,
  `enable_echo`/`disable_echo`, and the `Drop` impl), modelled as a
  state machine over an explicit OS world with a fault schedule for
  fallible OS calls.

Machine flag words (`tcflag_t`, `DWORD`, both 32-bit unsigned) are
modelled as `Nat`; Rust's bitwise complement `!x` on a 32-bit word is
`not32 x = (2^32 - 1) ^^^ x`.
-/

namespace TerminalPrompt

/-- Bitwise complement of a 32-bit machine word (Rust `!x` on `u32`). -/
def not32 (x : Nat) : Nat := (2 ^ 32 - 1) ^^^ x

namespace Unix

/-- `libc::ECHO` on Linux (`0o10`). -/
def ECHO : Nat := 8

/-- `libc::ICANON` on Linux (`0o2`). -/
def ICANON : Nat := 2

/-- The fields of `libc::termios` relevant to this crate: the mutators only
touch `c_lflag`; the remaining fields are carried along to state frame
properties. `c_cc` stands for the control-character array. -/
structure Termios where
  c_iflag : Nat
  c_oflag : Nat
  c_cflag : Nat
  c_lflag : Nat
  c_cc : List Nat
  deriving DecidableEq, Repr

/-- `sys::unix::TerminalMode`: a copyable snapshot wrapping a `termios`. -/
structure TerminalMode where
  termios : Termios
  deriving DecidableEq, Repr

/-- `TerminalMode::enable_line_editing` (unix.rs:78): `c_lflag |= ICANON`. -/
def TerminalMode.enable_line_editing (m : TerminalMode) : TerminalMode :=
  { m with termios := { m.termios with c_lflag := m.termios.c_lflag ||| ICANON } }

/-- `TerminalMode::disable_echo` (unix.rs:82):
`c_lflag &= !ECHO; c_lflag &= !ICANON`. -/
def TerminalMode.disable_echo (m : TerminalMode) : TerminalMode :=
  { m with termios := { m.termios with
      c_lflag := (m.termios.c_lflag &&& not32 ECHO) &&& not32 ICANON } }

/-- `TerminalMode::enable_echo` (unix.rs:87):
`c_lflag |= ECHO; c_lflag |= !ICANON` (the source really ORs the complement
of `ICANON`). -/
def TerminalMode.enable_echo (m : TerminalMode) : TerminalMode :=
  { m with termios := { m.termios with
      c_lflag := (m.termios.c_lflag ||| ECHO) ||| not32 ICANON } }

/-- `TerminalMode::is_echo_enabled` (unix.rs:92): `c_lflag & ECHO != 0`. -/
def TerminalMode.is_echo_enabled (m : TerminalMode) : Bool :=
  m.termios.c_lflag &&& ECHO != 0

end Unix

namespace Win

/-- `winapi::um::wincon::ENABLE_LINE_INPUT` (`0x2`). -/
def ENABLE_LINE_INPUT : Nat := 2

/-- `winapi::um::wincon::ENABLE_ECHO_INPUT` (`0x4`). -/
def ENABLE_ECHO_INPUT : Nat := 4

/-- `sys::windows::TerminalMode`: a copyable snapshot of the console input
mode word. -/
structure TerminalMode where
  input_mode : Nat
  deriving DecidableEq, Repr

/-- `TerminalMode::enable_line_editing` (windows.rs:63):
`input_mode |= ENABLE_LINE_INPUT`. -/
def TerminalMode.enable_line_editing (m : TerminalMode) : TerminalMode :=
  { m with input_mode := m.input_mode ||| ENABLE_LINE_INPUT }

/-- `TerminalMode::disable_echo` (windows.rs:67):
`input_mode &= !ENABLE_ECHO_INPUT`. -/
def TerminalMode.disable_echo (m : TerminalMode) : TerminalMode :=
  { m with input_mode := m.input_mode &&& not32 ENABLE_ECHO_INPUT }

/-- `TerminalMode::enable_echo` (windows.rs:71):
`input_mode |= ENABLE_ECHO_INPUT`. -/
def TerminalMode.enable_echo (m : TerminalMode) : TerminalMode :=
  { m with input_mode := m.input_mode ||| ENABLE_ECHO_INPUT }

/-- `TerminalMode::is_echo_enabled` (windows.rs:75):
`input_mode & ENABLE_ECHO_INPUT != 0`. -/
def TerminalMode.is_echo_enabled (m : TerminalMode) : Bool :=
  m.input_mode &&& ENABLE_ECHO_INPUT != 0

end Win

/-! ## Bit-level helper lemmas -/

lemma and_two_pow_ne_zero_iff (x i : Nat) : ¬(x &&& 2 ^ i = 0) ↔ x.testBit i := by
  rw [Nat.and_two_pow]
  cases h : x.testBit i <;> simp [h, Nat.pow_eq_zero]

lemma testBit_ge_32 (x i : Nat) (hx : x < 2 ^ 32) (hi : 32 ≤ i) :
    x.testBit i = false := by
  apply Nat.testBit_lt_two_pow
  exact lt_of_lt_of_le hx (Nat.pow_le_pow_right (by norm_num) hi)

lemma testBit_not32 (x i : Nat) (hx : x < 2 ^ 32) :
    (not32 x).testBit i = (decide (i < 32) && !(x.testBit i)) := by
  unfold not32
  rw [Nat.testBit_xor, Nat.testBit_two_pow_sub_one]
  by_cases h : i < 32
  · simp [h]
  · simp [h, testBit_ge_32 x i hx (not_lt.mp h)]

lemma and_not32_two_pow_frame (x b i : Nat) (hx : x < 2 ^ 32) (hb : b < 32)
    (hib : i ≠ b) : (x &&& not32 (2 ^ b)).testBit i = x.testBit i := by
  rw [Nat.testBit_land,
    testBit_not32 _ _ (Nat.pow_lt_pow_right (by norm_num) hb),
    Nat.testBit_two_pow_of_ne (fun h => hib h.symm)]
  by_cases h : i < 32
  · simp [h]
  · simp [h, testBit_ge_32 x i hx (not_lt.mp h)]

lemma lor_two_pow_frame (x b i : Nat) (hib : i ≠ b) :
    (x ||| 2 ^ b).testBit i = x.testBit i := by
  simp [Nat.testBit_lor, Nat.testBit_two_pow_of_ne (fun h => hib h.symm)]

/-! ## Echo-override laws of the mode mutators -/

lemma unix_enable_echo_law (mu : Unix.TerminalMode) :
    (Unix.TerminalMode.enable_echo mu).is_echo_enabled = true := by
  simp only [Unix.TerminalMode.is_echo_enabled, Unix.TerminalMode.enable_echo,
    bne_iff_ne, ne_eq]
  rw [show Unix.ECHO = 2 ^ 3 from rfl, and_two_pow_ne_zero_iff]
  simp [Nat.testBit_lor, show (not32 Unix.ICANON).testBit 3 = true from by decide]

lemma unix_disable_echo_law (mu : Unix.TerminalMode) :
    (Unix.TerminalMode.disable_echo mu).is_echo_enabled = false := by
  simp only [Unix.TerminalMode.is_echo_enabled, Unix.TerminalMode.disable_echo,
    bne_eq_false_iff_eq]
  rw [Nat.land_assoc, Nat.land_assoc,
    show not32 Unix.ECHO &&& (not32 Unix.ICANON &&& Unix.ECHO) = 0 from by decide]
  simp

lemma win_enable_echo_law (mw : Win.TerminalMode) :
    (Win.TerminalMode.enable_echo mw).is_echo_enabled = true := by
  simp only [Win.TerminalMode.is_echo_enabled, Win.TerminalMode.enable_echo,
    bne_iff_ne, ne_eq]
  rw [show Win.ENABLE_ECHO_INPUT = 2 ^ 2 from rfl, and_two_pow_ne_zero_iff]
  simp [Nat.testBit_lor, show Nat.testBit 4 2 = true from by decide]

lemma win_disable_echo_law (mw : Win.TerminalMode) :
    (Win.TerminalMode.disable_echo mw).is_echo_enabled = false := by
  simp only [Win.TerminalMode.is_echo_enabled, Win.TerminalMode.disable_echo,
    bne_eq_false_iff_eq]
  rw [Nat.land_assoc,
    show not32 Win.ENABLE_ECHO_INPUT &&& Win.ENABLE_ECHO_INPUT = 0 from by decide]
  simp

/-! ## Claims about the mode mutators (C1, C2, C8) -/

/-- C2: for every mode snapshot `m`, `is_echo_enabled (enable_echo m) = true`
and `is_echo_enabled (disable_echo m) = false`, regardless of `m`'s prior
state, on both the POSIX and console-API representations. -/
theorem C2_echo_override (mu : Unix.TerminalMode) (mw : Win.TerminalMode) :
    ((Unix.TerminalMode.enable_echo mu).is_echo_enabled = true
      ∧ (Unix.TerminalMode.disable_echo mu).is_echo_enabled = false)
    ∧ ((Win.TerminalMode.enable_echo mw).is_echo_enabled = true
      ∧ (Win.TerminalMode.disable_echo mw).is_echo_enabled = false) :=
  ⟨⟨unix_enable_echo_law mu, unix_disable_echo_law mu⟩,
    win_enable_echo_law mw, win_disable_echo_law mw⟩

/-- C8: `enable_line_editing` never changes the result of `is_echo_enabled`
on the same snapshot, on both the POSIX and console-API representations. -/
theorem C8_line_editing_preserves_echo (mu : Unix.TerminalMode)
    (mw : Win.TerminalMode) :
    (Unix.TerminalMode.enable_line_editing mu).is_echo_enabled
        = mu.is_echo_enabled
    ∧ (Win.TerminalMode.enable_line_editing mw).is_echo_enabled
        = mw.is_echo_enabled := by
  constructor
  · have h : (mu.termios.c_lflag ||| Unix.ICANON).testBit 3
        = mu.termios.c_lflag.testBit 3 := by
      simp [Nat.testBit_lor, show Nat.testBit Unix.ICANON 3 = false from by decide]
    simp only [Unix.TerminalMode.is_echo_enabled, Unix.TerminalMode.enable_line_editing]
    congr 1
    rw [show Unix.ECHO = 2 ^ 3 from rfl, Nat.and_two_pow, Nat.and_two_pow, h]
  · have h : (mw.input_mode ||| Win.ENABLE_LINE_INPUT).testBit 2
        = mw.input_mode.testBit 2 := by
      simp [Nat.testBit_lor,
        show Nat.testBit Win.ENABLE_LINE_INPUT 2 = false from by decide]
    simp only [Win.TerminalMode.is_echo_enabled, Win.TerminalMode.enable_line_editing]
    congr 1
    rw [show Win.ENABLE_ECHO_INPUT = 2 ^ 2 from rfl, Nat.and_two_pow,
      Nat.and_two_pow, h]

/-- C1 counterexample: the claim that `enable_echo`/`disable_echo` change only
the echo facet (leaving the canonical-mode facet and all other flag bits
intact) on both representations is false: on the POSIX representation,
`disable_echo` also clears the `ICANON` bit.  Concretely, at
`c_lflag = 10 = ECHO ||| ICANON`, `disable_echo` produces `c_lflag = 0`, whose
`ICANON` facet differs from the input's. -/
theorem C1_counterexample :
    ¬ (∀ (mu : Unix.TerminalMode) (mw : Win.TerminalMode),
        ((Unix.TerminalMode.disable_echo mu).termios.c_lflag &&& Unix.ICANON
            = mu.termios.c_lflag &&& Unix.ICANON
          ∧ (Unix.TerminalMode.enable_echo mu).termios.c_lflag &&& Unix.ICANON
            = mu.termios.c_lflag &&& Unix.ICANON
          ∧ (∀ i, i ≠ 3 → (Unix.TerminalMode.disable_echo mu).termios.c_lflag.testBit i
              = mu.termios.c_lflag.testBit i)
          ∧ (∀ i, i ≠ 3 → (Unix.TerminalMode.enable_echo mu).termios.c_lflag.testBit i
              = mu.termios.c_lflag.testBit i))
        ∧ ((∀ i, i ≠ 2 → (Win.TerminalMode.disable_echo mw).input_mode.testBit i
              = mw.input_mode.testBit i)
          ∧ (∀ i, i ≠ 2 → (Win.TerminalMode.enable_echo mw).input_mode.testBit i
              = mw.input_mode.testBit i))) := by
  intro h
  exact absurd (h ⟨⟨0, 0, 0, 10, []⟩⟩ ⟨0⟩).1.1 (by decide)

/-- C1 amended: on the console-API representation both mutators change only
the echo bit; on the POSIX representation both mutators leave every termios
field other than `c_lflag` unchanged, `disable_echo` clears exactly the
`ECHO` (bit 3) and `ICANON` (bit 1) bits of `c_lflag` and preserves all
other bits, while `enable_echo` preserves the `ICANON` bit but sets every
other bit of the 32-bit `c_lflag` word (it ORs in the complement of
`ICANON`). -/
theorem C1_frame_amended (mu : Unix.TerminalMode) (mw : Win.TerminalMode)
    (i : Nat) (hu : mu.termios.c_lflag < 2 ^ 32) (hw : mw.input_mode < 2 ^ 32) :
    (i ≠ 2 → (Win.TerminalMode.disable_echo mw).input_mode.testBit i
          = mw.input_mode.testBit i
        ∧ (Win.TerminalMode.enable_echo mw).input_mode.testBit i
          = mw.input_mode.testBit i)
    ∧ ((Unix.TerminalMode.disable_echo mu).termios.c_iflag = mu.termios.c_iflag
      ∧ (Unix.TerminalMode.disable_echo mu).termios.c_oflag = mu.termios.c_oflag
      ∧ (Unix.TerminalMode.disable_echo mu).termios.c_cflag = mu.termios.c_cflag
      ∧ (Unix.TerminalMode.disable_echo mu).termios.c_cc = mu.termios.c_cc
      ∧ (Unix.TerminalMode.enable_echo mu).termios.c_iflag = mu.termios.c_iflag
      ∧ (Unix.TerminalMode.enable_echo mu).termios.c_oflag = mu.termios.c_oflag
      ∧ (Unix.TerminalMode.enable_echo mu).termios.c_cflag = mu.termios.c_cflag
      ∧ (Unix.TerminalMode.enable_echo mu).termios.c_cc = mu.termios.c_cc)
    ∧ ((Unix.TerminalMode.disable_echo mu).termios.c_lflag.testBit 3 = false
      ∧ (Unix.TerminalMode.disable_echo mu).termios.c_lflag.testBit 1 = false
      ∧ (i ≠ 1 → i ≠ 3 → (Unix.TerminalMode.disable_echo mu).termios.c_lflag.testBit i
          = mu.termios.c_lflag.testBit i))
    ∧ ((Unix.TerminalMode.enable_echo mu).termios.c_lflag.testBit 1
        = mu.termios.c_lflag.testBit 1
      ∧ (i < 32 → i ≠ 1 → (Unix.TerminalMode.enable_echo mu).termios.c_lflag.testBit i
          = true)) := by
  refine ⟨?_, ⟨rfl, rfl, rfl, rfl, rfl, rfl, rfl, rfl⟩, ⟨?_, ?_, ?_⟩, ?_, ?_⟩
  · intro hi2
    constructor
    · show (mw.input_mode &&& not32 Win.ENABLE_ECHO_INPUT).testBit i = _
      rw [show Win.ENABLE_ECHO_INPUT = 2 ^ 2 from rfl]
      exact and_not32_two_pow_frame _ _ _ hw (by norm_num) hi2
    · show (mw.input_mode ||| Win.ENABLE_ECHO_INPUT).testBit i = _
      rw [show Win.ENABLE_ECHO_INPUT = 2 ^ 2 from rfl]
      exact lor_two_pow_frame _ _ _ hi2
  · show (_ &&& not32 Unix.ICANON).testBit 3 = false
    rw [Nat.testBit_land, Nat.testBit_land,
      show (not32 Unix.ECHO).testBit 3 = false from by decide]
    simp
  · show (_ &&& not32 Unix.ICANON).testBit 1 = false
    rw [Nat.testBit_land, show (not32 Unix.ICANON).testBit 1 = false from by decide]
    simp
  · intro hi1 hi3
    show ((mu.termios.c_lflag &&& not32 Unix.ECHO) &&& not32 Unix.ICANON).testBit i = _
    rw [show Unix.ICANON = 2 ^ 1 from rfl,
      and_not32_two_pow_frame _ _ _
        (lt_of_le_of_lt Nat.and_le_left hu) (by norm_num) hi1,
      show Unix.ECHO = 2 ^ 3 from rfl,
      and_not32_two_pow_frame _ _ _ hu (by norm_num) hi3]
  · show ((mu.termios.c_lflag ||| Unix.ECHO) ||| not32 Unix.ICANON).testBit 1 = _
    rw [Nat.testBit_lor, Nat.testBit_lor,
      show (not32 Unix.ICANON).testBit 1 = false from by decide,
      show Unix.ECHO.testBit 1 = false from by decide]
    simp
  · intro hi32 hi1
    show ((mu.termios.c_lflag ||| Unix.ECHO) ||| not32 Unix.ICANON).testBit i = true
    rw [Nat.testBit_lor]
    have : (not32 Unix.ICANON).testBit i = true := by
      rw [testBit_not32 _ _ (by decide),
        show Unix.ICANON = 2 ^ 1 from rfl,
        Nat.testBit_two_pow_of_ne (fun h => hi1 h.symm)]
      simp [hi32]
    simp [this]

/-- Witness for `C1_frame_amended` at `c_lflag = 10`, `input_mode = 6`,
bit `0`. -/
theorem C1_frame_amended_witness :
    (Win.TerminalMode.disable_echo ⟨6⟩).input_mode.testBit 0 = Nat.testBit 6 0
      ∧ (Win.TerminalMode.enable_echo ⟨6⟩).input_mode.testBit 0 = Nat.testBit 6 0 :=
  (C1_frame_amended ⟨⟨0, 0, 0, 10, []⟩⟩ ⟨6⟩ 0 (by decide) (by decide)).1 (by decide)

/-! ## The platform-independent session logic of `src/lib.rs`

`lib.rs` is generic over the platform module `sys`: it only uses
`get_terminal_mode`, `set_terminal_mode`, the four mode mutators/queries,
and the `Read`/`Write` impls of `sys::Terminal`.  We model the mode type
abstractly as `M` with a record of the mode operations, and the OS side of
the terminal as an explicit world: the current mode, the characters written
to the output side, the pending input characters, and a fault schedule
(one entry per fallible OS call, in program order; an exhausted schedule
means no more faults). -/

/-- The `sys::TerminalMode` interface used by `lib.rs`. -/
structure ModeOps (M : Type) where
  is_echo_enabled : M → Bool
  disable_echo : M → M
  enable_echo : M → M
  enable_line_editing : M → M

/-- `ModeOps` instantiated with the POSIX representation. -/
def unixOps : ModeOps Unix.TerminalMode where
  is_echo_enabled := Unix.TerminalMode.is_echo_enabled
  disable_echo := Unix.TerminalMode.disable_echo
  enable_echo := Unix.TerminalMode.enable_echo
  enable_line_editing := Unix.TerminalMode.enable_line_editing

/-- `ModeOps` instantiated with the console-API representation. -/
def winOps : ModeOps Win.TerminalMode where
  is_echo_enabled := Win.TerminalMode.is_echo_enabled
  disable_echo := Win.TerminalMode.disable_echo
  enable_echo := Win.TerminalMode.enable_echo
  enable_line_editing := Win.TerminalMode.enable_line_editing

/-- The OS-visible state of the terminal. -/
structure World (M : Type) where
  /-- The mode currently installed in the OS terminal driver. -/
  mode : M
  /-- Everything written to the terminal's output side so far. -/
  written : List Char
  /-- The input characters not yet consumed. -/
  input : List Char
  /-- Fault schedule: the head decides whether the next fallible OS call
  fails; an empty schedule means every remaining call succeeds. -/
  schedule : List Bool
  deriving DecidableEq

/-- Pop the next fault-schedule entry. -/
def nextFault {M : Type} (w : World M) : Bool × World M :=
  match w.schedule with
  | [] => (false, w)
  | f :: rest => (f, { w with schedule := rest })

/-- OS call `tcgetattr`/`GetConsoleMode` behind `get_terminal_mode`:
returns the current mode, or `none` on failure. -/
def sysGetMode {M : Type} (w : World M) : Option M × World M :=
  match nextFault w with
  | (true, w) => (none, w)
  | (false, w) => (some w.mode, w)

/-- OS call `tcsetattr`/`SetConsoleMode` behind `set_terminal_mode`:
installs `m` as the terminal mode, or fails leaving the mode unchanged. -/
def sysSetMode {M : Type} (m : M) (w : World M) : Bool × World M :=
  match nextFault w with
  | (true, w) => (false, w)
  | (false, w) => (true, { w with mode := m })

/-- A `write!` to the terminal's output side. -/
def sysWrite {M : Type} (t : List Char) (w : World M) : Bool × World M :=
  match nextFault w with
  | (true, w) => (false, w)
  | (false, w) => (true, { w with written := w.written ++ t })

/-- Split the input at the first line feed: the first component is the text
up to and including the `'\n'` (or all of it, at end of input without a
line feed), the second is the rest. -/
def splitLine : List Char → List Char × List Char
  | [] => ([], [])
  | c :: rest =>
    if c = '\n' then ([c], rest)
    else
      let (l, r) := splitLine rest
      (c :: l, r)

/-- `BufRead::read_line` on the terminal: reads up to and including the
first line feed (or to the end of input). -/
def sysReadLine {M : Type} (w : World M) : Option (List Char) × World M :=
  match nextFault w with
  | (true, w) => (none, w)
  | (false, w) => (some (splitLine w.input).1, { w with input := (splitLine w.input).2 })

/-- `Terminal::is_echo_enabled` (lib.rs:79): `get_terminal_mode()?` then
inspect the snapshot. -/
def Terminal.is_echo_enabled {M : Type} (ops : ModeOps M) (w : World M) :
    Option Bool × World M :=
  match sysGetMode w with
  | (none, w) => (none, w)
  | (some m, w) => (some (ops.is_echo_enabled m), w)

/-- `Terminal::disable_echo` (lib.rs:88): get the current mode, clear echo
on the snapshot, install it. -/
def Terminal.disable_echo {M : Type} (ops : ModeOps M) (w : World M) :
    Option Unit × World M :=
  match sysGetMode w with
  | (none, w) => (none, w)
  | (some m, w) =>
    match sysSetMode (ops.disable_echo m) w with
    | (false, w) => (none, w)
    | (true, w) => (some (), w)

/-- `Terminal::enable_echo` (lib.rs:98): get the current mode, set echo on
the snapshot, install it. -/
def Terminal.enable_echo {M : Type} (ops : ModeOps M) (w : World M) :
    Option Unit × World M :=
  match sysGetMode w with
  | (none, w) => (none, w)
  | (some m, w) =>
    match sysSetMode (ops.enable_echo m) w with
    | (false, w) => (none, w)
    | (true, w) => (some (), w)

/-- `buffer.ends_with('\n')` followed by `buffer.pop()` (lib.rs:116). -/
def stripTrailingNl (buffer : List Char) : List Char :=
  if buffer.getLast? = some '\n' then buffer.dropLast else buffer

/-- `Terminal::read_input_line` (lib.rs:109): `read_line` into a fresh
buffer (propagating failure); then, when `is_echo_enabled().ok()` reports
`Some(false)`, a `writeln!` (a single `'\n'`) is attempted and its result
discarded; finally one trailing `'\n'` is stripped from the buffer. -/
def Terminal.read_input_line {M : Type} (ops : ModeOps M) (w : World M) :
    Option (List Char) × World M :=
  match sysReadLine w with
  | (none, w) => (none, w)
  | (some buffer, w) =>
    let w :=
      match Terminal.is_echo_enabled ops w with
      | (some false, w) => (sysWrite ['\n'] w).2
      | (_, w) => w
    (some (stripTrailingNl buffer), w)

/-- `Terminal::prompt_sensitive` (lib.rs:137): snapshot the mode
(propagating failure); if echo is on, install an echo-disabled copy
(propagating failure); write the prompt text (propagating failure); read a
line; if echo was originally on, install the saved snapshot wholesale,
discarding failure; return the read line. -/
def Terminal.prompt_sensitive {M : Type} (ops : ModeOps M) (text : List Char)
    (w : World M) : Option (List Char) × World M :=
  match sysGetMode w with
  | (none, w) => (none, w)
  | (some old_mode, w) =>
    match (if ops.is_echo_enabled old_mode then
        sysSetMode (ops.disable_echo old_mode) w
      else (true, w)) with
    | (false, w) => (none, w)
    | (true, w) =>
      match sysWrite text w with
      | (false, w) => (none, w)
      | (true, w) =>
        let (line, w) := Terminal.read_input_line ops w
        let w :=
          if ops.is_echo_enabled old_mode then (sysSetMode old_mode w).2
          else w
        (line, w)

/-- `Terminal::open` (lib.rs:60), after the platform `sys::Terminal::open`
succeeded: read the initial mode (propagating failure), enable line editing
on a copy, install it (propagating failure), and keep `initial_mode` in the
session. -/
def Terminal.open {M : Type} (ops : ModeOps M) (w : World M) :
    Option M × World M :=
  match sysGetMode w with
  | (none, w) => (none, w)
  | (some initial_mode, w) =>
    match sysSetMode (ops.enable_line_editing initial_mode) w with
    | (false, w) => (none, w)
    | (true, w) => (some initial_mode, w)

/-- `impl Drop for Terminal` (lib.rs:153): unconditionally attempt
`set_terminal_mode(&self.initial_mode)` and discard the result. -/
def Terminal.drop {M : Type} (initial_mode : M) (w : World M) : World M :=
  (sysSetMode initial_mode w).2

/-! ## Platform terminal discovery (`sys::Terminal::open`) -/

namespace Unix

/-- The OS facts that `sys::unix::Terminal::open` consults: which file
descriptors `isatty` reports as terminals, and whether opening `/dev/tty`
in read-write mode succeeds (yielding a fresh descriptor) or fails. -/
structure Env where
  isTty : Nat → Bool
  devTty : Option Nat

/-- `sys::unix::Terminal` (unix.rs:7): a non-owning handle to a standard
stream, or an owned handle to `/dev/tty`. -/
inductive Handle
  | Stdio (fd : Nat)
  | File (fd : Nat)
  deriving DecidableEq, Repr

/-- The two error outcomes of `Terminal::open` (unix.rs:21): the `?` on the
`/dev/tty` open, and `Error::from_raw_os_error(ENOTTY)`. -/
inductive OpenError
  | devTtyOpenFailed
  | notTty
  deriving DecidableEq, Repr

/-- `open_fd_terminal` (unix.rs:68): wrap `fd` if `isatty` accepts it. -/
def open_fd_terminal (env : Env) (fd : Nat) : Option Handle :=
  if env.isTty fd then some (.Stdio fd) else none

/-- `Terminal::open` (unix.rs:21): try stderr (fd 2), then stdin (fd 0),
then stdout (fd 1); otherwise open `/dev/tty` read-write, and require the
opened device to be a terminal. -/
def Terminal.open (env : Env) : Except OpenError Handle :=
  match open_fd_terminal env 2 with
  | some t => .ok t
  | none =>
    match open_fd_terminal env 0 with
    | some t => .ok t
    | none =>
      match open_fd_terminal env 1 with
      | some t => .ok t
      | none =>
        match env.devTty with
        | none => .error .devTtyOpenFailed
        | some fd =>
          if env.isTty fd then .ok (.File fd) else .error .notTty

end Unix

namespace Win

/-- The OS facts that `sys::windows::Terminal::open` consults:
whether `GetConsoleMode` succeeds on the standard input and standard error
handles. -/
structure Env where
  stdinIsConsole : Bool
  stderrIsConsole : Bool
  deriving DecidableEq, Repr

/-- The two error outcomes of `Terminal::open` (windows.rs:26), each naming
the stream that failed the console check. -/
inductive OpenError
  | stdinNotTerminal
  | stderrNotTerminal
  deriving DecidableEq, Repr

/-- `Terminal::open` (windows.rs:26): require standard input and standard
error to both be consoles, reporting which check failed; no fallback. -/
def Terminal.open (env : Env) : Except OpenError Unit :=
  if !env.stdinIsConsole then .error .stdinNotTerminal
  else if !env.stderrIsConsole then .error .stderrNotTerminal
  else .ok ()

end Win

/-- C5: on the POSIX target, `Terminal::open` probes stderr, stdin, stdout
in that order, selecting the first that `isatty` accepts; if none
qualifies it opens `/dev/tty` read-write, and if that open fails, or the
opened device is not a terminal, it returns an error. -/
theorem C5_unix_open_discovery (env : Unix.Env) :
    (env.isTty 2 = true → Unix.Terminal.open env = .ok (.Stdio 2))
    ∧ (env.isTty 2 = false → env.isTty 0 = true →
        Unix.Terminal.open env = .ok (.Stdio 0))
    ∧ (env.isTty 2 = false → env.isTty 0 = false → env.isTty 1 = true →
        Unix.Terminal.open env = .ok (.Stdio 1))
    ∧ (env.isTty 2 = false → env.isTty 0 = false → env.isTty 1 = false →
        env.devTty = none →
        Unix.Terminal.open env = .error .devTtyOpenFailed)
    ∧ (∀ fd, env.isTty 2 = false → env.isTty 0 = false → env.isTty 1 = false →
        env.devTty = some fd → env.isTty fd = true →
        Unix.Terminal.open env = .ok (.File fd))
    ∧ (∀ fd, env.isTty 2 = false → env.isTty 0 = false → env.isTty 1 = false →
        env.devTty = some fd → env.isTty fd = false →
        Unix.Terminal.open env = .error .notTty) := by
  refine ⟨?_, ?_, ?_, ?_, ?_, ?_⟩ <;>
    intros <;>
    simp_all [Unix.Terminal.open, Unix.open_fd_terminal]

/-- Witness for `C5_unix_open_discovery`: in an environment where only
stdin (fd 0) is a terminal, `open` selects stdin. -/
theorem C5_unix_open_discovery_witness :
    Unix.Terminal.open ⟨fun fd => decide (fd = 0), none⟩ = .ok (.Stdio 0) :=
  (C5_unix_open_discovery ⟨fun fd => decide (fd = 0), none⟩).2.1
    (by decide) (by decide)

/-- C9: on the console-API target, `Terminal::open` succeeds exactly when
both standard input and standard error are consoles; a failed check
produces an error naming the offending stream (stdin is checked first),
and there is no fallback path. -/
theorem C9_win_open_both_consoles (env : Win.Env) :
    (Win.Terminal.open env = .ok () ↔
      env.stdinIsConsole = true ∧ env.stderrIsConsole = true)
    ∧ (env.stdinIsConsole = false →
        Win.Terminal.open env = .error .stdinNotTerminal)
    ∧ (env.stdinIsConsole = true → env.stderrIsConsole = false →
        Win.Terminal.open env = .error .stderrNotTerminal) := by
  rcases env with ⟨si, se⟩
  cases si <;> cases se <;> simp [Win.Terminal.open]

/-- Witness for `C9_win_open_both_consoles`: with a console stdin and a
non-console stderr, `open` reports that stderr is not a terminal. -/
theorem C9_win_open_both_consoles_witness :
    Win.Terminal.open ⟨true, false⟩ = .error .stderrNotTerminal :=
  (C9_win_open_both_consoles ⟨true, false⟩).2.2 rfl rfl

/-! ## World bookkeeping lemmas -/

lemma nextFault_mode {M : Type} (w : World M) : (nextFault w).2.mode = w.mode := by
  cases hs : w.schedule <;> simp [nextFault, hs]

lemma nextFault_written {M : Type} (w : World M) :
    (nextFault w).2.written = w.written := by
  cases hs : w.schedule <;> simp [nextFault, hs]

lemma nextFault_input {M : Type} (w : World M) :
    (nextFault w).2.input = w.input := by
  cases hs : w.schedule <;> simp [nextFault, hs]

lemma sysReadLine_written {M : Type} (w : World M) :
    (sysReadLine w).2.written = w.written := by
  unfold sysReadLine
  rcases hnf : nextFault w with ⟨f, w2⟩
  have := nextFault_written w
  rw [hnf] at this
  cases f <;> simpa using this

lemma is_echo_enabled_world {M : Type} (ops : ModeOps M) (w : World M) :
    (Terminal.is_echo_enabled ops w).2 = (nextFault w).2 := by
  unfold Terminal.is_echo_enabled sysGetMode
  rcases hnf : nextFault w with ⟨f, w2⟩
  cases f <;> simp [hnf]

lemma sysWrite_ok_written {M : Type} (t : List Char) (w : World M)
    (h : (nextFault w).1 = false) :
    (sysWrite t w).2.written = w.written ++ t := by
  unfold sysWrite
  rcases hnf : nextFault w with ⟨f, w2⟩
  rw [hnf] at h
  have hw := nextFault_written w
  rw [hnf] at hw
  simp only at h
  subst h
  simpa using hw

/-! ## Claims about `read_input_line` (C6, C7) -/

/-- C6: `read_input_line` returns the text read by `read_line` with exactly
one trailing line feed removed when the text ends in one, and returns the
text unchanged otherwise; no other transformation is applied. -/
theorem C6_read_input_line_strips_one_newline {M : Type} (ops : ModeOps M)
    (w : World M) (text : List Char)
    (h : (sysReadLine w).1 = some text) :
    ∃ r, (Terminal.read_input_line ops w).1 = some r
      ∧ (text.getLast? = some '\n' → r ++ ['\n'] = text)
      ∧ (text.getLast? ≠ some '\n' → r = text) := by
  rcases hsr : sysReadLine w with ⟨o, w1⟩
  rw [hsr] at h
  simp only at h
  subst h
  refine ⟨stripTrailingNl text, ?_, ?_, ?_⟩
  · simp only [Terminal.read_input_line, hsr]
  · intro hl
    simp only [stripTrailingNl, hl, if_pos]
    exact List.dropLast_append_getLast? '\n' (Option.mem_def.mpr hl)
  · intro hl
    simp [stripTrailingNl, hl]

/-- Witness for `C6_read_input_line_strips_one_newline`: reading
`['h', 'i', '\n']` followed by further input. -/
theorem C6_read_input_line_strips_one_newline_witness :
    ∃ r,
      (Terminal.read_input_line unixOps
        ⟨⟨⟨0, 0, 0, 0, []⟩⟩, [], ['h', 'i', '\n', 'x'], []⟩).1 = some r
      ∧ (['h', 'i', '\n'].getLast? = some '\n' → r ++ ['\n'] = ['h', 'i', '\n'])
      ∧ (['h', 'i', '\n'].getLast? ≠ some '\n' → r = ['h', 'i', '\n']) :=
  C6_read_input_line_strips_one_newline unixOps
    ⟨⟨⟨0, 0, 0, 0, []⟩⟩, [], ['h', 'i', '\n', 'x'], []⟩ ['h', 'i', '\n']
    (by decide)

/-- C7: after a successful `read_line`, `read_input_line` writes exactly one
line feed to the output side when echo is reported disabled (and the write
itself does not fault), and writes nothing extra when echo is reported
enabled. -/
theorem C7_newline_echoed_when_echo_off {M : Type} (ops : ModeOps M)
    (w w1 : World M) (text : List Char)
    (h : sysReadLine w = (some text, w1)) :
    ((Terminal.is_echo_enabled ops w1).1 = some false →
      (nextFault (Terminal.is_echo_enabled ops w1).2).1 = false →
      (Terminal.read_input_line ops w).2.written = w.written ++ ['\n'])
    ∧ ((Terminal.is_echo_enabled ops w1).1 = some true →
      (Terminal.read_input_line ops w).2.written = w.written) := by
  have hw1 : w1.written = w.written := by
    have := sysReadLine_written w
    rw [h] at this
    exact this
  constructor
  · intro hrep hwr
    rcases hie : Terminal.is_echo_enabled ops w1 with ⟨o, w2⟩
    rw [hie] at hrep hwr
    simp only at hrep hwr
    subst hrep
    have hw2 : w2.written = w.written := by
      have h1 := is_echo_enabled_world ops w1
      rw [hie] at h1
      simp only at h1
      rw [h1, nextFault_written, hw1]
    simp only [Terminal.read_input_line, h, hie]
    rw [sysWrite_ok_written _ _ hwr, hw2]
  · intro hrep
    rcases hie : Terminal.is_echo_enabled ops w1 with ⟨o, w2⟩
    rw [hie] at hrep
    simp only at hrep
    subst hrep
    have hw2 : w2.written = w.written := by
      have h1 := is_echo_enabled_world ops w1
      rw [hie] at h1
      simp only at h1
      rw [h1, nextFault_written, hw1]
    simp only [Terminal.read_input_line, h, hie]
    exact hw2

/-- Witness for `C7_newline_echoed_when_echo_off`: with echo disabled
(`c_lflag = 0`), reading a line writes one line feed. -/
theorem C7_newline_echoed_when_echo_off_witness :
    (Terminal.read_input_line unixOps
      ⟨⟨⟨0, 0, 0, 0, []⟩⟩, [], ['a', '\n'], []⟩).2.written = [] ++ ['\n'] :=
  (C7_newline_echoed_when_echo_off unixOps
      ⟨⟨⟨0, 0, 0, 0, []⟩⟩, [], ['a', '\n'], []⟩
      ⟨⟨⟨0, 0, 0, 0, []⟩⟩, [], [], []⟩ ['a', '\n'] (by decide)).1
    (by decide) (by decide)

/-! ## Claims about `prompt_sensitive` (C3, C10) -/

/-- C3: `prompt_sensitive` reads the mode first; when echo is enabled it
disables echo via `set_terminal_mode`, propagating a failure of that call;
then it writes the prompt text verbatim and reads one input line; the
restoring `set_terminal_mode` call's failure is discarded, so the caller
still receives the line that was read (schedule entries, in call order:
mode read, echo-disabling set, prompt write, line read, echo query, echoed
newline write, restoring set). -/
theorem C3_prompt_sensitive_error_handling {M : Type} (ops : ModeOps M)
    (text : List Char) (w : World M)
    (hlaw : ∀ m, ops.is_echo_enabled (ops.disable_echo m) = false)
    (hecho : ops.is_echo_enabled w.mode = true) :
    (∀ rest, w.schedule = false :: true :: rest →
      (Terminal.prompt_sensitive ops text w).1 = none)
    ∧ (∀ b, w.schedule = [false, false, false, false, false, false, b] →
      (Terminal.prompt_sensitive ops text w).1
          = some (stripTrailingNl (splitLine w.input).1)
        ∧ (Terminal.prompt_sensitive ops text w).2.written
          = w.written ++ text ++ ['\n']) := by
  constructor
  · intro rest hsched
    simp [Terminal.prompt_sensitive, sysGetMode, sysSetMode, nextFault,
      hsched, hecho]
  · intro b hsched
    cases b <;>
      simp [Terminal.prompt_sensitive, Terminal.read_input_line,
        Terminal.is_echo_enabled, sysGetMode, sysSetMode, sysWrite, sysReadLine,
        nextFault, hsched, hecho, hlaw]

/-- Witness for `C3_prompt_sensitive_error_handling`: echo on
(`c_lflag = 8`), all calls succeed except the restoring set; the typed line
`"s"` is still returned and the prompt was written. -/
theorem C3_prompt_sensitive_error_handling_witness :
    (Terminal.prompt_sensitive unixOps ['P']
        ⟨⟨⟨0, 0, 0, 8, []⟩⟩, [], ['s', '\n'],
          [false, false, false, false, false, false, true]⟩).1
      = some (stripTrailingNl
          (splitLine (⟨⟨⟨0, 0, 0, 8, []⟩⟩, [], ['s', '\n'],
            [false, false, false, false, false, false, true]⟩ :
              World Unix.TerminalMode).input).1)
    ∧ (Terminal.prompt_sensitive unixOps ['P']
        ⟨⟨⟨0, 0, 0, 8, []⟩⟩, [], ['s', '\n'],
          [false, false, false, false, false, false, true]⟩).2.written
      = [] ++ ['P'] ++ ['\n'] :=
  (C3_prompt_sensitive_error_handling unixOps ['P']
      ⟨⟨⟨0, 0, 0, 8, []⟩⟩, [], ['s', '\n'],
        [false, false, false, false, false, false, true]⟩
      unix_disable_echo_law (by decide)).2 true rfl

/-- C10: when `prompt_sensitive` starts with echo enabled and no OS call
faults, the whole terminal mode afterwards equals the snapshot captured at
the start of the call: the saved `old_mode` is written back wholesale. -/
theorem C10_prompt_sensitive_restores_whole_mode {M : Type} (ops : ModeOps M)
    (text : List Char) (w : World M)
    (hecho : ops.is_echo_enabled w.mode = true)
    (hsched : w.schedule = []) :
    (Terminal.prompt_sensitive ops text w).2.mode = w.mode := by
  cases hb : ops.is_echo_enabled (ops.disable_echo w.mode) <;>
    simp [Terminal.prompt_sensitive, Terminal.read_input_line,
      Terminal.is_echo_enabled, sysGetMode, sysSetMode, sysWrite, sysReadLine,
      nextFault, hsched, hecho, hb]

/-- Witness for `C10_prompt_sensitive_restores_whole_mode`: echo on
(`c_lflag = 8`), no faults; the final mode is the initial one. -/
theorem C10_prompt_sensitive_restores_whole_mode_witness :
    (Terminal.prompt_sensitive unixOps ['P']
        ⟨⟨⟨0, 0, 0, 8, []⟩⟩, [], ['s', '\n'], []⟩).2.mode
      = (⟨⟨⟨0, 0, 0, 8, []⟩⟩, [], ['s', '\n'], []⟩ :
          World Unix.TerminalMode).mode :=
  C10_prompt_sensitive_restores_whole_mode unixOps ['P']
    ⟨⟨⟨0, 0, 0, 8, []⟩⟩, [], ['s', '\n'], []⟩ (by decide) rfl

/-! ## Claim about the `Drop` impl (C4) -/

/-- The echo mutations a caller can perform during a session's lifetime. -/
inductive SessionAction
  | enableEcho
  | disableEcho
  deriving DecidableEq, Repr

/-- Run one `Terminal::enable_echo`/`Terminal::disable_echo` call for its
effect on the world. -/
def applySessionAction {M : Type} (ops : ModeOps M) (w : World M) :
    SessionAction → World M
  | .enableEcho => (Terminal.enable_echo ops w).2
  | .disableEcho => (Terminal.disable_echo ops w).2

/-- Run a sequence of echo mutations. -/
def applySessionActions {M : Type} (ops : ModeOps M)
    (acts : List SessionAction) (w : World M) : World M :=
  acts.foldl (applySessionAction ops) w

lemma open_ok_init {M : Type} (ops : ModeOps M) (w w1 : World M) (init : M)
    (h : Terminal.open ops w = (some init, w1)) : init = w.mode := by
  rcases hnf : nextFault w with ⟨f, w2⟩
  rcases hnf2 : nextFault w2 with ⟨f2, w3⟩
  have hm : w2.mode = w.mode := by
    have := nextFault_mode w
    rw [hnf] at this
    exact this
  cases f <;> cases f2 <;>
    simp [Terminal.open, sysGetMode, sysSetMode, hnf, hnf2] at h
  rw [← h.1, hm]

lemma drop_mode_ok {M : Type} (init : M) (w : World M)
    (h : (nextFault w).1 = false) : (Terminal.drop init w).mode = init := by
  unfold Terminal.drop sysSetMode
  rcases hnf : nextFault w with ⟨f, w2⟩
  rw [hnf] at h
  simp only at h
  subst h
  simp [hnf]

lemma drop_mode_fail {M : Type} (init : M) (w : World M)
    (h : (nextFault w).1 = true) : (Terminal.drop init w).mode = w.mode := by
  unfold Terminal.drop sysSetMode
  rcases hnf : nextFault w with ⟨f, w2⟩
  rw [hnf] at h
  simp only at h
  subst h
  have := nextFault_mode w
  rw [hnf] at this
  simpa [hnf] using this

/-- C4: the `Drop` impl unconditionally attempts
`set_terminal_mode(initial_mode)` with the mode captured at `open` before
line editing was enabled, and discards the outcome: when the call succeeds
the mode after drop is `initial_mode`, for any sequence of
`enable_echo`/`disable_echo` calls made during the session; when it fails,
drop still returns normally and the mode is simply left as it was. -/
theorem C4_drop_restores_initial_mode {M : Type} (ops : ModeOps M)
    (w w1 : World M) (init : M) (acts : List SessionAction)
    (hopen : Terminal.open ops w = (some init, w1)) :
    init = w.mode
    ∧ (∀ w2, w2 = applySessionActions ops acts w1 →
        (nextFault w2).1 = false → (Terminal.drop init w2).mode = init)
    ∧ (∀ w2, w2 = applySessionActions ops acts w1 →
        (nextFault w2).1 = true → (Terminal.drop init w2).mode = w2.mode) := by
  refine ⟨open_ok_init ops w w1 init hopen, ?_, ?_⟩
  · intro w2 _ hf
    exact drop_mode_ok init w2 hf
  · intro w2 _ hf
    exact drop_mode_fail init w2 hf

/-- Witness for `C4_drop_restores_initial_mode`: a fault-free session that
enables echo after opening; drop reinstalls the initial mode
(`c_lflag = 0`). -/
theorem C4_drop_restores_initial_mode_witness :
    (Terminal.drop (⟨⟨0, 0, 0, 0, []⟩⟩ : Unix.TerminalMode)
        (applySessionActions unixOps [SessionAction.enableEcho]
          ⟨⟨⟨0, 0, 0, 2, []⟩⟩, [], [], []⟩)).mode
      = (⟨⟨0, 0, 0, 0, []⟩⟩ : Unix.TerminalMode) :=
  (C4_drop_restores_initial_mode unixOps ⟨⟨⟨0, 0, 0, 0, []⟩⟩, [], [], []⟩
      ⟨⟨⟨0, 0, 0, 2, []⟩⟩, [], [], []⟩ ⟨⟨0, 0, 0, 0, []⟩⟩
      [SessionAction.enableEcho] (by decide)).2.1 _ rfl (by decide)

end TerminalPrompt
